import Mathlib

/-!
Shallow embedding of the `ross` rotordynamics repository slice present in
the source tree: the `PointMass` element (`src/ross/point_mass.py`) and
the rubbing-run interface exercised by `src/ross/tests/test_rubbing.py`.
The rubbing engine itself (`Rotor.run_rubbing`, its contact-force model,
result container and configuration validation) is not part of the source
tree; those parts are modelled from the specification, and the
definitions say so in their doc comments.  Python optional arguments that
may be `None` are embedded as `Option` values; numeric scalars are
rationals.
-/

namespace Ross

/-- Embedding of the stored fields of `PointMass`
(`src/ross/point_mass.py`): node index `n`, optional scalar mass `m`,
optional directional masses `mx`, `my`, and an optional `tag`. -/
structure PointMass where
  n : Option ℤ
  m : Option ℚ
  mx : Option ℚ
  my : Option ℚ
  tag : Option String
deriving DecidableEq

/-- Embedding of `PointMass.__init__`: stores `n`, `m` and `tag` as
given; when `mx` and `my` are both absent, both fall back to `m`,
otherwise they are stored as given. -/
def PointMass.init (n : Option ℤ) (m mx my : Option ℚ)
    (tag : Option String) : PointMass :=
  if mx = none ∧ my = none then
    { n := n, m := m, mx := m, my := m, tag := tag }
  else
    { n := n, m := m, mx := mx, my := my, tag := tag }

/-- Embedding of `PointMass.M`: the 2×2 array `[[mx, 0], [0, my]]`.
Entries live in `Option ℚ` because a missing directional mass is `None`
inside the resulting `numpy` object array. -/
def PointMass.M (p : PointMass) : Fin 2 → Fin 2 → Option ℚ :=
  ![![p.mx, some 0], ![some 0, p.my]]

/-- Embedding of `PointMass.C`: `np.zeros((2, 2))`. -/
def PointMass.C (_ : PointMass) : Fin 2 → Fin 2 → ℚ :=
  ![![0, 0], ![0, 0]]

/-- Embedding of `PointMass.K`: `np.zeros((2, 2))`. -/
def PointMass.K (_ : PointMass) : Fin 2 → Fin 2 → ℚ :=
  ![![0, 0], ![0, 0]]

/-- Embedding of `PointMass.G`: `np.zeros((2, 2))`. -/
def PointMass.G (_ : PointMass) : Fin 2 → Fin 2 → ℚ :=
  ![![0, 0], ![0, 0]]

/-- Embedding of `PointMass.dof_mapping`: `dict(x_0=0, y_0=1)`. -/
def PointMass.dof_mapping (_ : PointMass) : List (String × ℕ) :=
  [("x_0", 0), ("y_0", 1)]

/-- State-passing embedding of the method call `p.M()`: the body reads
`self.mx` and `self.my` and performs no assignment to `self`, so the
post-state is the receiver unchanged. -/
def PointMass.M_st (p : PointMass) :
    (Fin 2 → Fin 2 → Option ℚ) × PointMass :=
  (![![p.mx, some 0], ![some 0, p.my]], p)

/-- State-passing embedding of the method call `p.C()`: the body reads
nothing from `self` and performs no assignment. -/
def PointMass.C_st (p : PointMass) : (Fin 2 → Fin 2 → ℚ) × PointMass :=
  (![![0, 0], ![0, 0]], p)

/-- State-passing embedding of the method call `p.K()`. -/
def PointMass.K_st (p : PointMass) : (Fin 2 → Fin 2 → ℚ) × PointMass :=
  (![![0, 0], ![0, 0]], p)

/-- State-passing embedding of the method call `p.G()`. -/
def PointMass.G_st (p : PointMass) : (Fin 2 → Fin 2 → ℚ) × PointMass :=
  (![![0, 0], ![0, 0]], p)

/-- State-passing embedding of the method call `p.dof_mapping()`. -/
def PointMass.dof_mapping_st (p : PointMass) :
    List (String × ℕ) × PointMass :=
  ([("x_0", 0), ("y_0", 1)], p)

/-- Modelled from the spec: the rubbing configuration (spec §3, §6).
The engine `Rotor.run_rubbing` is absent from the source tree; `nNodes`
is the node count of the consuming rotor, against which `posRUB` is
range-checked. -/
structure RubConfig where
  dt : ℚ
  tI : ℚ
  tF : ℚ
  deltaRUB : ℚ
  kRUB : ℚ
  cRUB : ℚ
  miRUB : ℚ
  posRUB : ℕ
  speed : ℚ
  massunb : List ℚ
  phaseunb : List ℚ
  nNodes : ℕ

/-- Modelled from the spec: penetration `δ = r − deltaRUB` (spec §4.4),
where `r` is the radial displacement norm at the rub node. -/
def rubPenetration (deltaRUB r : ℚ) : ℚ :=
  r - deltaRUB

/-- Modelled from the spec: the normal contact force law (spec §4.4) —
`kRUB·δ + cRUB·δ̇` during contact (`δ > 0`), clamped to be
non-negative, and exactly zero when `δ ≤ 0` (no contact). -/
def rubFn (kRUB cRUB penet vrad : ℚ) : ℚ :=
  if 0 < penet then max 0 (kRUB * penet + cRUB * vrad) else 0

/-- Modelled from the spec: the tangential friction force (spec §4.4,
§9) — magnitude `miRUB·Fn`, sign opposing the tangential sliding
velocity, with the fixed documented convention of zero friction at
exactly zero tangential velocity. -/
def rubFt (miRUB fn vtan : ℚ) : ℚ :=
  if 0 < vtan then -(miRUB * fn) else if vtan < 0 then miRUB * fn else 0

/-- Modelled from the spec: projection of the local normal/tangential
forces to global x/y components through the contact direction
`(c, s) = (cos θ, sin θ)` with `θ = atan2(y, x)` (spec §4.4). -/
def rubProject (c s fn ft : ℚ) : ℚ × ℚ :=
  (-(fn * c) - ft * s, -(fn * s) + ft * c)

/-- Modelled from the spec: the global contact-force vector of one
timestep (spec §4.4, §8) — the projected force pair is applied only at
the rub node's lateral DOFs `6·posRUB` and `6·posRUB + 1`; every other
DOF receives zero contribution. -/
def rubForceVector (posRUB : ℕ) (fx fy : ℚ) : ℕ → ℚ :=
  fun i => if i = 6 * posRUB then fx
           else if i = 6 * posRUB + 1 then fy else 0

/-- Modelled from the spec: the `forces_rub` history (spec §6) records
at each timestep the global contact-force vector of that step.  The
rub-node force pair is an arbitrary function of the step index,
abstracting the state-dependent contact evaluation of the absent
integrator. -/
def forcesRubHistory (cfg : RubConfig) (f : ℕ → ℚ × ℚ) : ℕ → ℕ → ℚ :=
  fun i t => rubForceVector cfg.posRUB (f t).1 (f t).2 i

/-- Modelled from the spec: the result object of a rubbing run (spec
§6) exposes the original configuration parameters plus the force
history. -/
structure RubbingResult where
  dt : ℚ
  tI : ℚ
  tF : ℚ
  deltaRUB : ℚ
  kRUB : ℚ
  cRUB : ℚ
  miRUB : ℚ
  posRUB : ℕ
  speed : ℚ
  forces_rub : ℕ → ℕ → ℚ

/-- Modelled from the spec: `run_rubbing` copies the configuration into
the result unchanged and records the force history (spec §6); the
trajectory argument abstracts the integrator's state evolution. -/
def runRubbing (cfg : RubConfig) (f : ℕ → ℚ × ℚ) : RubbingResult :=
  { dt := cfg.dt, tI := cfg.tI, tF := cfg.tF, deltaRUB := cfg.deltaRUB,
    kRUB := cfg.kRUB, cRUB := cfg.cRUB, miRUB := cfg.miRUB,
    posRUB := cfg.posRUB, speed := cfg.speed,
    forces_rub := forcesRubHistory cfg f }

/-- Configuration errors rejected at setup (spec §7). -/
inductive ConfigError where
  | invalidDt
  | invalidTimeBounds
  | posRubOutOfRange
  | unbalanceLengthMismatch
deriving DecidableEq

/-- Modelled from the spec: setup validation (spec §7) rejecting
`dt ≤ 0`, `tF ≤ tI`, a rub node outside `[0, nNodes)`, and mismatched
`massunb`/`phaseunb` lengths. -/
def validateConfig (cfg : RubConfig) : Option ConfigError :=
  if cfg.dt ≤ 0 then some ConfigError.invalidDt
  else if cfg.tF ≤ cfg.tI then some ConfigError.invalidTimeBounds
  else if cfg.nNodes ≤ cfg.posRUB then some ConfigError.posRubOutOfRange
  else if cfg.massunb.length ≠ cfg.phaseunb.length then
    some ConfigError.unbalanceLengthMismatch
  else none

/-- Modelled from the spec: the checked run fails fast with a
configuration error before any stepping — on rejection it produces an
error and no result state at all (spec §7). -/
def runRubbingChecked (cfg : RubConfig) (f : ℕ → ℚ × ℚ) :
    Except ConfigError RubbingResult :=
  match validateConfig cfg with
  | some e => Except.error e
  | none => Except.ok (runRubbing cfg f)

/-- The reference configuration of `test_rubbing.py` (the unbalance
phase `−π/2` is replaced by a rational stand-in; only list lengths and
the other scalars matter where this value is used). -/
def refCfg : RubConfig :=
  { dt := 1/1000, tI := 0, tF := 1/2, deltaRUB := 795/10000000,
    kRUB := 1100000, cRUB := 40, miRUB := 3/10, posRUB := 12,
    speed := 1200, massunb := [1/2000, 0], phaseunb := [-157/100, 0],
    nNodes := 34 }

/-- A configuration with an invalid (non-positive) step size. -/
def badCfg : RubConfig :=
  { refCfg with dt := -1 }

/-- `rubFt` applied to a zero normal force is zero, whatever the
tangential velocity. -/
theorem rubFt_of_fn_zero (miRUB vtan : ℚ) : rubFt miRUB 0 vtan = 0 := by
  unfold rubFt
  split
  · ring
  · split
    · ring
    · rfl

/-- Claim C2: for every configuration and every per-step rub-node force
pair, the `forces_rub` history is exactly zero at every DOF that does
not belong to the rub node (a DOF `i` belongs to node `posRUB` exactly
when `i / 6 = posRUB`), at every timestep. -/
theorem forcesRub_zero_off_rub_node (cfg : RubConfig) (f : ℕ → ℚ × ℚ)
    (i t : ℕ) (h : i / 6 ≠ cfg.posRUB) :
    forcesRubHistory cfg f i t = 0 := by
  have h1 : i ≠ 6 * cfg.posRUB := by omega
  have h2 : i ≠ 6 * cfg.posRUB + 1 := by omega
  simp [forcesRubHistory, rubForceVector, h1, h2]

/-- Witness for C2 at the reference configuration, DOF 5 (node 0) and
timestep 0. -/
theorem forcesRub_zero_off_rub_node_w :
    forcesRubHistory refCfg (fun _ => (1, 2)) 5 0 = 0 :=
  forcesRub_zero_off_rub_node refCfg (fun _ => (1, 2)) 5 0 (by decide)

/-- Claim C3: whenever the radial displacement norm at the rub node does
not exceed the clearance (penetration `δ ≤ 0`), the contact-force
contribution is exactly zero — normal force, friction force and both
projected global components; moreover the normal-force law vanishes at
`δ = 0` for every radial velocity, and the penetration-dependence of the
normal force is continuous at `δ = 0` (ε–δ form, at zero radial
velocity). -/
theorem rubForce_zero_no_contact
    (kRUB cRUB miRUB deltaRUB r vrad vtan : ℚ)
    (hk : 0 ≤ kRUB) (hr : r ≤ deltaRUB) :
    rubFn kRUB cRUB (rubPenetration deltaRUB r) vrad = 0 ∧
    rubFt miRUB (rubFn kRUB cRUB (rubPenetration deltaRUB r) vrad)
      vtan = 0 ∧
    (∀ c s : ℚ,
      rubProject c s
        (rubFn kRUB cRUB (rubPenetration deltaRUB r) vrad)
        (rubFt miRUB
          (rubFn kRUB cRUB (rubPenetration deltaRUB r) vrad) vtan)
        = (0, 0)) ∧
    (∀ v : ℚ, rubFn kRUB cRUB 0 v = 0) ∧
    ∀ ε : ℚ, 0 < ε → ∃ η : ℚ, 0 < η ∧
      ∀ penet : ℚ, |penet| < η → |rubFn kRUB cRUB penet 0| < ε := by
  have hpen : ¬ 0 < rubPenetration deltaRUB r := by
    unfold rubPenetration; linarith
  have hfn : rubFn kRUB cRUB (rubPenetration deltaRUB r) vrad = 0 := by
    unfold rubFn; rw [if_neg hpen]
  have hft : rubFt miRUB
      (rubFn kRUB cRUB (rubPenetration deltaRUB r) vrad) vtan = 0 := by
    rw [hfn]; exact rubFt_of_fn_zero miRUB vtan
  refine ⟨hfn, hft, ?_, ?_, ?_⟩
  · intro c s
    rw [hfn, rubFt_of_fn_zero]
    unfold rubProject
    norm_num
  · intro v
    unfold rubFn
    rw [if_neg (lt_irrefl 0)]
  · intro ε hε
    refine ⟨ε / (kRUB + 1), div_pos hε (by linarith), ?_⟩
    intro penet hp
    by_cases hc : 0 < penet
    · have hval : rubFn kRUB cRUB penet 0 = max 0 (kRUB * penet) := by
        unfold rubFn; rw [if_pos hc]; ring_nf
      rw [hval]
      have habs : |penet| = penet := abs_of_pos hc
      rw [habs] at hp
      have hmul : penet * (kRUB + 1) < ε :=
        (lt_div_iff₀ (by linarith)).mp hp
      have hkp : kRUB * penet < ε := by nlinarith
      have hnn : 0 ≤ max 0 (kRUB * penet) := le_max_left 0 _
      rw [abs_of_nonneg hnn]
      exact max_lt hε hkp
    · have hval : rubFn kRUB cRUB penet 0 = 0 := by
        unfold rubFn; rw [if_neg hc]
      rw [hval, abs_zero]
      exact hε

/-- Witness for C3 at the reference parameters with the rotor at rest at
the origin (radial norm `0 ≤ deltaRUB`). -/
theorem rubForce_zero_no_contact_w :
    rubFn 1100000 40 (rubPenetration (795/10000000) 0) 0 = 0 :=
  (rubForce_zero_no_contact 1100000 40 (3/10) (795/10000000) 0 0 0
    (by norm_num) (by norm_num)).1

/-- Claim C4: during contact (`δ > 0`) the normal force is
`kRUB·δ + cRUB·δ̇` clamped to be non-negative (zero whenever the
elastic-plus-viscous sum is negative), and the friction force has
magnitude bounded by `miRUB·Fn`, equals `±miRUB·Fn` with sign opposing
the tangential velocity, and follows the fixed zero convention at
exactly zero tangential velocity. -/
theorem rubForce_contact_law (kRUB cRUB miRUB penet vrad vtan : ℚ)
    (hmi : 0 ≤ miRUB) (hpen : 0 < penet) :
    rubFn kRUB cRUB penet vrad = max 0 (kRUB * penet + cRUB * vrad) ∧
    (kRUB * penet + cRUB * vrad < 0 →
      rubFn kRUB cRUB penet vrad = 0) ∧
    0 ≤ rubFn kRUB cRUB penet vrad ∧
    (0 < vtan →
      rubFt miRUB (rubFn kRUB cRUB penet vrad) vtan =
        -(miRUB * rubFn kRUB cRUB penet vrad)) ∧
    (vtan < 0 →
      rubFt miRUB (rubFn kRUB cRUB penet vrad) vtan =
        miRUB * rubFn kRUB cRUB penet vrad) ∧
    (vtan = 0 → rubFt miRUB (rubFn kRUB cRUB penet vrad) vtan = 0) ∧
    |rubFt miRUB (rubFn kRUB cRUB penet vrad) vtan| ≤
      miRUB * rubFn kRUB cRUB penet vrad ∧
    rubFt miRUB (rubFn kRUB cRUB penet vrad) vtan * vtan ≤ 0 := by
  have hfn : rubFn kRUB cRUB penet vrad =
      max 0 (kRUB * penet + cRUB * vrad) := by
    unfold rubFn; rw [if_pos hpen]
  have hfn_nn : 0 ≤ rubFn kRUB cRUB penet vrad := by
    rw [hfn]; exact le_max_left 0 _
  have hprod_nn : 0 ≤ miRUB * rubFn kRUB cRUB penet vrad :=
    mul_nonneg hmi hfn_nn
  refine ⟨hfn, ?_, hfn_nn, ?_, ?_, ?_, ?_, ?_⟩
  · intro hneg
    rw [hfn]
    exact max_eq_left (le_of_lt hneg)
  · intro hv
    unfold rubFt; rw [if_pos hv]
  · intro hv
    unfold rubFt
    rw [if_neg (by linarith), if_pos hv]
  · intro hv
    unfold rubFt
    rw [if_neg (by rw [hv]; exact lt_irrefl 0),
        if_neg (by rw [hv]; exact lt_irrefl 0)]
  · unfold rubFt
    split
    · rw [abs_neg, abs_of_nonneg hprod_nn]
    · split
      · rw [abs_of_nonneg hprod_nn]
      · rw [abs_zero]; exact hprod_nn
  · unfold rubFt
    split
    · next hv => nlinarith
    · split
      · next hv => nlinarith
      · rw [zero_mul]

/-- Witness for C4 at `kRUB = 2`, `cRUB = 1`, `miRUB = 1/2`,
`δ = 1`, `δ̇ = 3`, `vtan = 1`. -/
theorem rubForce_contact_law_w :
    rubFn 2 1 1 3 = max 0 (2 * 1 + 1 * 3) :=
  (rubForce_contact_law 2 1 (1/2) 1 3 1 (by norm_num) (by norm_num)).1

/-- Claim C5: the result object of a rubbing run exposes the original
configuration parameters unchanged: `dt`, `tI`, `tF`, `deltaRUB`,
`kRUB`, `cRUB`, `miRUB`, `posRUB` and `speed` all equal the values the
caller passed in. -/
theorem runRubbing_preserves_config (cfg : RubConfig) (f : ℕ → ℚ × ℚ) :
    (runRubbing cfg f).dt = cfg.dt ∧
    (runRubbing cfg f).tI = cfg.tI ∧
    (runRubbing cfg f).tF = cfg.tF ∧
    (runRubbing cfg f).deltaRUB = cfg.deltaRUB ∧
    (runRubbing cfg f).kRUB = cfg.kRUB ∧
    (runRubbing cfg f).cRUB = cfg.cRUB ∧
    (runRubbing cfg f).miRUB = cfg.miRUB ∧
    (runRubbing cfg f).posRUB = cfg.posRUB ∧
    (runRubbing cfg f).speed = cfg.speed :=
  ⟨rfl, rfl, rfl, rfl, rfl, rfl, rfl, rfl, rfl⟩

/-- Claim C6: every invalid configuration — `dt ≤ 0`, or `tF ≤ tI`, or
`posRUB` at or beyond the node count, or `massunb` and `phaseunb` of
different lengths — makes the checked run fail at setup with a
configuration error: the run returns an error and no result state. -/
theorem runRubbing_invalid_config_fails (cfg : RubConfig)
    (f : ℕ → ℚ × ℚ)
    (h : cfg.dt ≤ 0 ∨ cfg.tF ≤ cfg.tI ∨ cfg.nNodes ≤ cfg.posRUB ∨
      cfg.massunb.length ≠ cfg.phaseunb.length) :
    ∃ e : ConfigError, runRubbingChecked cfg f = Except.error e := by
  cases heq : validateConfig cfg with
  | some e =>
      refine ⟨e, ?_⟩
      unfold runRubbingChecked
      rw [heq]
  | none =>
      exfalso
      unfold validateConfig at heq
      split_ifs at heq with h1 h2 h3 h4
      rcases h with h | h | h | h
      · exact h1 h
      · exact h2 h
      · exact h3 h
      · exact h4 h

/-- Witness for C6 at the bad configuration with `dt = -1`. -/
theorem runRubbing_invalid_config_fails_w :
    ∃ e : ConfigError,
      runRubbingChecked badCfg (fun _ => (0, 0)) = Except.error e :=
  runRubbing_invalid_config_fails badCfg (fun _ => (0, 0))
    (Or.inl (by norm_num [badCfg, refCfg]))

/-- Claim C7: `M()` is the 2×2 diagonal matrix `diag(mx, my)` (with
zero off-diagonal entries) for every `PointMass`, and an element
constructed with a single mass `m` and neither `mx` nor `my` has
`M() = diag(m, m)`. -/
theorem pointMass_M_diagonal :
    (∀ (p : PointMass) (i j : Fin 2),
      p.M i j =
        if i = j then (if i = 0 then p.mx else p.my) else some 0) ∧
    ∀ (n : Option ℤ) (m : ℚ) (tag : Option String) (i j : Fin 2),
      (PointMass.init n (some m) none none tag).M i j =
        if i = j then some m else some 0 := by
  constructor
  · intro p i j
    fin_cases i <;> fin_cases j <;> simp [PointMass.M]
  · intro n m tag i j
    fin_cases i <;> fin_cases j <;> simp [PointMass.M, PointMass.init]

/-- Claim C8: for every `PointMass`, whatever its constructor arguments
(including a bare node index with no mass data), `C()`, `K()` and `G()`
are the all-zero 2×2 matrix, and `dof_mapping()` maps the lateral DOF
names `x_0` and `y_0` to local indices 0 and 1. -/
theorem pointMass_CKG_zero_and_dof_mapping :
    ∀ p : PointMass,
      (∀ i j : Fin 2, p.C i j = 0 ∧ p.K i j = 0 ∧ p.G i j = 0) ∧
      p.dof_mapping = [("x_0", 0), ("y_0", 1)] := by
  intro p
  refine ⟨?_, rfl⟩
  intro i j
  fin_cases i <;> fin_cases j <;>
    exact ⟨rfl, rfl, rfl⟩

/-- Claim C9: the matrix operations and `dof_mapping` of a `PointMass`
are pure: their state-passing embeddings leave every stored field (`n`,
`m`, `mx`, `my`, `tag`) unchanged, a repeated call through the returned
state yields the same value, and the returned values depend only on the
stored fields (two elements with equal fields get equal results). -/
theorem pointMass_methods_pure :
    (∀ p : PointMass,
      ((PointMass.M_st p).2 = p ∧ (PointMass.C_st p).2 = p ∧
       (PointMass.K_st p).2 = p ∧ (PointMass.G_st p).2 = p ∧
       (PointMass.dof_mapping_st p).2 = p) ∧
      (PointMass.M_st ((PointMass.M_st p).2)).1 =
        (PointMass.M_st p).1) ∧
    ∀ p q : PointMass, p.n = q.n → p.m = q.m → p.mx = q.mx →
      p.my = q.my → p.tag = q.tag →
      p.M = q.M ∧ p.C = q.C ∧ p.K = q.K ∧ p.G = q.G ∧
      p.dof_mapping = q.dof_mapping := by
  constructor
  · intro p
    exact ⟨⟨rfl, rfl, rfl, rfl, rfl⟩, rfl⟩
  · intro p q hn hm hmx hmy htag
    refine ⟨?_, rfl, rfl, rfl, rfl⟩
    unfold PointMass.M
    rw [hmx, hmy]

/-- Witness for C9: two concretely built elements with equal stored
fields have the same mass matrix. -/
theorem pointMass_methods_pure_w :
    (PointMass.init (some 0) (some 2) none none none).M =
      (PointMass.mk (some 0) (some 2) (some 2) (some 2) none).M :=
  (pointMass_methods_pure.2
    (PointMass.init (some 0) (some 2) none none none)
    (PointMass.mk (some 0) (some 2) (some 2) (some 2) none)
    (by decide) (by decide) (by decide) (by decide) (by decide)).1

/-- Claim C10: when exactly one directional mass is provided and `m` is
absent, the `__init__` fallback does not fire: the other directional
mass stays `None`, and `M()` contains a `None` entry on the
corresponding diagonal position rather than a numeric zero. -/
theorem pointMass_single_direction_none :
    ∀ (n : Option ℤ) (v : ℚ) (tag : Option String),
      ((PointMass.init n none (some v) none tag).mx = some v ∧
       (PointMass.init n none (some v) none tag).my = none ∧
       (PointMass.init n none (some v) none tag).M 1 1 = none) ∧
      ((PointMass.init n none none (some v) tag).my = some v ∧
       (PointMass.init n none none (some v) tag).mx = none ∧
       (PointMass.init n none none (some v) tag).M 0 0 = none) := by
  intro n v tag
  refine ⟨⟨?_, ?_, ?_⟩, ?_, ?_, ?_⟩ <;>
    simp [PointMass.init, PointMass.M]

end Ross
